import Mathlib

/-!
Shallow embedding of the Wheel of Life application core
(`src/app/page.tsx` and the `WheelChart` component): category registry,
score store, insight engine, snapshot manager and chart data adapter,
together with theorems about their behaviour.

JavaScript objects `Record<string, number>` are modelled as association
lists with unique keys (`ScoreMap`); `{...prev, [k]: v}` updates the key
in place or appends it, `delete copy[k]` removes it.  The stable
`Array.prototype.sort` is modelled by `List.insertionSort`, which is
stable by construction.  Floating point averages are modelled by `ℚ`
with `toFixed(1)` as round-half-up to one decimal digit.
-/

set_option maxRecDepth 100000

/-- A life-area definition, from `type Category` in `page.tsx`. -/
structure Category where
  id : String
  label : String
  description : String
deriving Repr, DecidableEq

/-- The score store: a JS object keyed by category label. -/
abbrev ScoreMap := List (String × Int)

/-- Object property lookup `m[k]`, `none` when the key is absent. -/
def findScore : ScoreMap → String → Option Int
  | [], _ => none
  | (a, v) :: rest, k => if a = k then some v else findScore rest k

/-- Object spread update `{...m, [k]: v}`: replaces the value in place
when the key exists, otherwise appends the key at the end. -/
def setScoreKey : ScoreMap → String → Int → ScoreMap
  | [], k, v => [(k, v)]
  | (a, w) :: rest, k, v =>
    if a = k then (a, v) :: rest else (a, w) :: setScoreKey rest k v

/-- `delete m[k]` on an object with unique keys. -/
def eraseScoreKey : ScoreMap → String → ScoreMap
  | [], _ => []
  | (a, w) :: rest, k =>
    if a = k then rest else (a, w) :: eraseScoreKey rest k

/-- A persisted assessment, from `type StoredAssessment` in `page.tsx`. -/
structure StoredAssessment where
  id : String
  name : String
  createdAt : String
  scores : ScoreMap
  categories : List Category
deriving Repr, DecidableEq

/-- The snapshot shape handed to the chart, from `type AssessmentSnapshot`
in `WheelChart`. -/
structure AssessmentSnapshot where
  id : String
  name : String
  createdAt : String
  scores : ScoreMap
deriving Repr, DecidableEq

/-- The React state owned by `Home` that the core operations mutate. -/
structure AppState where
  categories : List Category
  scores : ScoreMap
  assessments : List StoredAssessment
  selectedComparisonId : Option String
deriving Repr, DecidableEq

/-- `DEFAULT_CATEGORIES` from `page.tsx`. -/
def DEFAULT_CATEGORIES : List Category :=
  [{ id := "health", label := "Health & Energy",
     description := "Physical health, sleep, energy, and overall wellbeing." },
   { id := "career", label := "Career & Work",
     description := "Progress, fulfillment, and alignment at work or in studies." },
   { id := "relationships", label := "Relationships",
     description := "Family, friends, partner, and social support." },
   { id := "finance", label := "Finances",
     description := "Income, savings, security, and money habits." },
   { id := "growth", label := "Personal Growth",
     description := "Learning, mindset, and self-development." },
   { id := "fun", label := "Fun & Recreation",
     description := "Play, hobbies, and activities that recharge you." },
   { id := "environment", label := "Environment",
     description := "Home, workspace, and surroundings." },
   { id := "spirituality", label := "Meaning & Spirituality",
     description := "Purpose, values, and connection to something bigger." }]

/-- The initial `Home` state: default categories, every label scored 5,
no saved assessments and no comparison selected. -/
def initialState : AppState :=
  { categories := DEFAULT_CATEGORIES
    scores := DEFAULT_CATEGORIES.map (fun c => (c.label, 5))
    assessments := []
    selectedComparisonId := none }

/-- `suggestForCategory` from `page.tsx`: fixed action table keyed by
category id, with a generic fallback referencing the label. -/
def suggestForCategory (id label : String) : String :=
  if id = "health" then
    "Pick one tiny habit this week (a 10‑minute walk, stretching, or lights‑out time) that would noticeably improve your energy."
  else if id = "career" then
    "Clarify your next small career move: a conversation, a course, or a project that moves you one step forward."
  else if id = "relationships" then
    "Schedule one meaningful check‑in or shared activity with someone important to you."
  else if id = "finance" then
    "Decide on one simple money habit: a weekly budget review, an automatic transfer, or tracking expenses."
  else if id = "growth" then
    "Choose one skill or topic to focus on this month and block out two learning sessions in your calendar."
  else if id = "fun" then
    "Plan a small, guilt‑free activity this week that’s just for enjoyment and recharge."
  else if id = "environment" then
    "Identify one small improvement to your space (decluttering, lighting, or setup) and schedule it."
  else if id = "spirituality" then
    "Set aside a short daily or weekly ritual (reflection, journaling, or quiet time) to reconnect with your values."
  else
    "Choose one small, realistic action this week that would move your \"" ++ label ++ "\" score up by just one point."

/-- `String.prototype.trim()`: strip leading and trailing whitespace.
(Lean's built-in `String.trim` walks byte positions and does not reduce
in the kernel, so the same operation is modelled on the char list.) -/
def jsTrim (s : String) : String :=
  String.mk (((s.data.dropWhile Char.isWhitespace).reverse.dropWhile Char.isWhitespace).reverse)

/-- `String.prototype.toLowerCase()` on the character list. -/
def jsToLower (s : String) : String :=
  String.mk (s.data.map Char.toLower)

/-- Render `n` tenths as a decimal string with one fractional digit,
the shape produced by `toFixed(1)`. -/
def fixed1String (n : Int) : String :=
  (if n < 0 then "-" else "") ++ toString (n.natAbs / 10) ++ "." ++ toString (n.natAbs % 10)

/-- The number of tenths of `q` after rounding to one decimal place,
ties towards the larger candidate, exactly the choice specified for
`Number.prototype.toFixed`. -/
def roundTo1 (q : ℚ) : Int :=
  Int.floor (10 * q + 1 / 2)

/-- `(s / c).toFixed(1)` for an integer sum `s` and positive count `c`:
the rounding is computed by an integer floor division,
`⌊10 * (s / c) + 1 / 2⌋ = (20 * s + c).fdiv (2 * c)`
(`toFixed1_eq_roundTo1` below proves this equals rounding the exact
rational mean). -/
def toFixed1 (s : Int) (c : Nat) : String :=
  fixed1String (Int.fdiv (20 * s + c) (2 * c))

/-- The categories that currently have a numeric score
(`categories.filter((c) => typeof scores[c.label] === 'number')`). -/
def activeCategories (categories : List Category) (scores : ScoreMap) : List Category :=
  categories.filter (fun c => (findScore scores c.label).isSome)

/-- The sort key used by `generateInsights`: `scores[c.label] ?? 0`. -/
def scoreOf (scores : ScoreMap) (c : Category) : Int :=
  (findScore scores c.label).getD 0

/-- The comparator relation of `generateInsights`' sort:
`(scores[a.label] ?? 0) - (scores[b.label] ?? 0)` non-positive. -/
def scoreLeRel (scores : ScoreMap) (a b : Category) : Prop :=
  scoreOf scores a ≤ scoreOf scores b

instance (scores : ScoreMap) : DecidableRel (scoreLeRel scores) :=
  fun a b => inferInstanceAs (Decidable (scoreOf scores a ≤ scoreOf scores b))

/-- `[...active].sort((a, b) => (scores[a.label] ?? 0) - (scores[b.label] ?? 0))`:
JavaScript's sort is stable, modelled by stable insertion sort. -/
def lowestSorted (categories : List Category) (scores : ScoreMap) : List Category :=
  List.insertionSort (scoreLeRel scores) (activeCategories categories scores)

/-- `lowestSorted.slice(0, 3)`: the priority set. -/
def priorityCategories (categories : List Category) (scores : ScoreMap) : List Category :=
  (lowestSorted categories scores).take 3

/-- The insight engine's result shape. -/
structure Insights where
  summary : String
  highlights : List String
  actions : List String
deriving Repr, DecidableEq

/-- `generateInsights` from `page.tsx`. -/
def generateInsights (categories : List Category) (scores : ScoreMap) : Insights :=
  let active := activeCategories categories scores
  if active.length = 0 then
    { summary := "Rate each area from 0–10 to see how balanced your current Wheel of Life feels."
      highlights := []
      actions := [] }
  else
    let values := active.map (fun c => (findScore scores c.label).getD 0)
    let lowest := priorityCategories categories scores
    { summary :=
        "Your average score is " ++
          toFixed1 (values.foldl (fun acc v => acc + v) 0)
            (if values.length = 0 then 1 else values.length) ++
          "/10 across " ++
          toString active.length ++
          " areas. A balanced wheel is less about perfection and more about feeling steady overall."
      highlights := lowest.map (fun cat =>
        cat.label ++ ": " ++ toString ((findScore scores cat.label).getD 0) ++
          "/10 — a small improvement here could have an outsized impact on your overall balance.")
      actions := lowest.map (fun cat => suggestForCategory cat.id cat.label) }

/-- `handleScoreChange` from `page.tsx`:
`setScores((prev) => ({ ...prev, [label]: value }))`. -/
def handleScoreChange (s : AppState) (label : String) (value : Int) : AppState :=
  { s with scores := setScoreKey s.scores label value }

/-- Whether a character survives the slug regex class `[a-z0-9]`. -/
def isLowerAlnum (c : Char) : Bool :=
  (97 ≤ c.toNat && c.toNat ≤ 122) || (48 ≤ c.toNat && c.toNat ≤ 57)

/-- `replace(/[^a-z0-9]+/g, '-')`: each maximal run of characters outside
`[a-z0-9]` becomes a single hyphen.  The flag records whether the
previous character belonged to such a run. -/
def collapseNonAlnum : Bool → List Char → List Char
  | _, [] => []
  | inRun, c :: rest =>
    if isLowerAlnum c then c :: collapseNonAlnum false rest
    else if inRun then collapseNonAlnum true rest
    else '-' :: collapseNonAlnum true rest

/-- `trimmed.toLowerCase().replace(/[^a-z0-9]+/g, '-')` from
`handleAddCategory`. -/
def slugify (s : String) : String :=
  String.mk (collapseNonAlnum false (jsToLower s).data)

/-- `handleAddCategory` from `page.tsx`.  `customLabel` and
`customDescription` are the form fields; `now` stands for `Date.now()`
in the fallback id. -/
def handleAddCategory (s : AppState) (customLabel customDescription : String)
    (now : Nat) : AppState :=
  let trimmed := jsTrim customLabel
  if trimmed = "" then s
  else if s.categories.any (fun c => jsToLower c.label == jsToLower trimmed) then s
  else
    let slug := slugify trimmed
    let newCat : Category :=
      { id := if slug = "" then "custom-" ++ toString now else slug
        label := trimmed
        description :=
          if jsTrim customDescription = "" then
            "A custom area of life that matters to you."
          else jsTrim customDescription }
    { s with
      categories := s.categories ++ [newCat]
      scores := setScoreKey s.scores newCat.label 5 }

/-- `handleRemoveCategory` from `page.tsx`: unconditionally filters the
registry by id and deletes the matching label's score entry (the score
updater closes over the pre-removal `categories`). -/
def handleRemoveCategory (s : AppState) (id : String) : AppState :=
  { s with
    categories := s.categories.filter (fun c => c.id != id)
    scores :=
      match s.categories.find? (fun c => c.id == id) with
      | some cat => eraseScoreKey s.scores cat.label
      | none => s.scores }

/-- The UI-level remove action: `page.tsx` renders the remove button
only when `categories.length > 4`, so removal can only be triggered
above the floor. -/
def uiRemoveCategory (s : AppState) (id : String) : AppState :=
  if 4 < s.categories.length then handleRemoveCategory s id else s

/-- `handleSaveAssessment` from `page.tsx`: `id`, `name` and `createdAt`
stand for the generated UUID, display name and ISO timestamp.  The
snapshot copies the live scores and categories, is prepended to the
history, and becomes the selected comparison. -/
def handleSaveAssessment (s : AppState) (id name createdAt : String) : AppState :=
  let snapshot : StoredAssessment :=
    { id := id, name := name, createdAt := createdAt
      scores := s.scores, categories := s.categories }
  { s with
    assessments := snapshot :: s.assessments
    selectedComparisonId := some id }

/-- The `comparisonSnapshot` memo from `page.tsx`: resolves the selected
id in the history and re-keys the stored scores by the snapshot's own
category labels, defaulting to 0. -/
def comparisonSnapshot (s : AppState) : Option AssessmentSnapshot :=
  match s.selectedComparisonId with
  | none => none
  | some cid =>
    match s.assessments.find? (fun a => a.id == cid) with
    | none => none
    | some found =>
      let scoresByLabel := found.categories.foldl
        (fun m c => setScoreKey m c.label ((findScore found.scores c.label).getD 0)) []
      some { id := found.id, name := found.name, createdAt := found.createdAt
             scores := scoresByLabel }

/-- The two labelled value series built by `WheelChart`'s `data` memo. -/
structure ChartData where
  labels : List String
  currentValues : List Int
  comparisonValues : Option (List Int)
deriving Repr, DecidableEq

/-- The `data` memo of `WheelChart`: series 1 maps each current label
through the live scores, series 2 (when a comparison is active) maps
each current label through the snapshot's scores, both defaulting to 0. -/
def wheelChartData (categories : List String) (currentScores : ScoreMap)
    (comparison : Option AssessmentSnapshot) : ChartData :=
  { labels := categories
    currentValues := categories.map (fun label => (findScore currentScores label).getD 0)
    comparisonValues :=
      comparison.map (fun comp =>
        categories.map (fun label => (findScore comp.scores label).getD 0)) }

/-- A JSON value, the abstract result of the external `JSON.parse`. -/
inductive Json where
  | null : Json
  | bool : Bool → Json
  | num : Int → Json
  | str : String → Json
  | arr : List Json → Json
  | obj : List (String × Json) → Json

/-- `loadAssessments` from `page.tsx`.  `raw` is the stored content
(`none` when absent), `parse` the external `JSON.parse` collaborator
(`Except.error` when it throws).  Anything that is not an array yields
the empty history; array elements are returned as-is, unvalidated. -/
def loadAssessments (raw : Option String) (parse : String → Except String Json) :
    List Json :=
  match raw with
  | none => []
  | some r =>
    match parse r with
    | Except.error _ => []
    | Except.ok (Json.arr xs) => xs
    | Except.ok _ => []

/-! ### Concrete fixtures used by the example parts of the claims -/

/-- Example category with label `A`. -/
def catA : Category := { id := "a", label := "A", description := "" }

/-- Example category with label `B`. -/
def catB : Category := { id := "b", label := "B", description := "" }

/-- Example category with label `C`. -/
def catC : Category := { id := "c", label := "C", description := "" }

/-- Example category with label `D`. -/
def catD : Category := { id := "d", label := "D", description := "" }

/-- Registry order `A, B, C, D`. -/
def catsABCD : List Category := [catA, catB, catC, catD]

/-- Registry order `A, B, C`. -/
def catsABC : List Category := [catA, catB, catC]

/-- The tied scores `{A:5, B:5, C:3, D:5}` of the ranking example. -/
def scoresTies : ScoreMap := [("A", 5), ("B", 5), ("C", 3), ("D", 5)]

/-- The scores `{A:2, B:4, C:6}` of the mean example. -/
def scoresMean : ScoreMap := [("A", 2), ("B", 4), ("C", 6)]

/-- A stored assessment whose categories were `A, B, D` with scores
`{A:1, B:2, D:9}`: `D` exists only in the snapshot. -/
def comparisonStored : StoredAssessment :=
  { id := "snap-1", name := "Assessment 1", createdAt := "2026-01-01T00:00:00.000Z"
    scores := [("A", 1), ("B", 2), ("D", 9)]
    categories := [catA, catB, catD] }

/-- A session whose live categories are `A, B, C` and whose selected
comparison is `comparisonStored`. -/
def comparisonState : AppState :=
  { categories := catsABC
    scores := [("A", 7), ("B", 8), ("C", 9)]
    assessments := [comparisonStored]
    selectedComparisonId := some "snap-1" }

/-- The state reached from the initial state by removing four categories
through the remove handler: exactly the four default categories
`health, career, relationships, finance` remain. -/
def removedToFloorState : AppState :=
  handleRemoveCategory (handleRemoveCategory (handleRemoveCategory
    (handleRemoveCategory initialState "spirituality") "environment") "fun") "growth"

/-! ### Helper lemmas -/

theorem findScore_setScoreKey_self (m : ScoreMap) (k : String) (v : Int) :
    findScore (setScoreKey m k v) k = some v := by
  induction m with
  | nil => simp [setScoreKey, findScore]
  | cons p rest ih =>
    obtain ⟨a, w⟩ := p
    by_cases h : a = k
    · simp [setScoreKey, findScore, h]
    · simp [setScoreKey, findScore, h, ih]

theorem findScore_setScoreKey_ne (m : ScoreMap) (k other : String) (v : Int)
    (h : other ≠ k) : findScore (setScoreKey m k v) other = findScore m other := by
  induction m with
  | nil => simp [setScoreKey, findScore, Ne.symm h]
  | cons p rest ih =>
    obtain ⟨a, w⟩ := p
    by_cases ha : a = k
    · subst ha
      have hoa : ¬ a = other := fun e => h e.symm
      simp [setScoreKey, findScore, hoa]
    · simp [setScoreKey, findScore, ha, ih]

theorem foldl_add_eq_sum (l : List Int) (a : Int) :
    l.foldl (fun acc v => acc + v) a = a + l.sum := by
  induction l generalizing a with
  | nil => simp
  | cons x xs ih => simp [List.foldl_cons, ih, add_assoc]

theorem filter_orderedInsert_of_eq (scores : ScoreMap) (k : Int) (x : Category)
    (hx : scoreOf scores x = k) (l : List Category) :
    (l.orderedInsert (scoreLeRel scores) x).filter (fun y => scoreOf scores y == k)
      = x :: l.filter (fun y => scoreOf scores y == k) := by
  induction l with
  | nil => simp [List.orderedInsert, hx]
  | cons y ys ih =>
    by_cases hcmp : scoreLeRel scores x y
    · rw [List.orderedInsert, if_pos hcmp]
      simp [List.filter_cons, hx]
    · rw [List.orderedInsert, if_neg hcmp]
      have hy : (scoreOf scores y == k) = false := by
        simp only [beq_eq_false_iff_ne, ne_eq]
        intro hyk
        exact hcmp (le_of_eq (by rw [hx, hyk]))
      simp [List.filter_cons, hy, ih]

theorem filter_orderedInsert_of_ne (scores : ScoreMap) (k : Int) (x : Category)
    (hx : scoreOf scores x ≠ k) (l : List Category) :
    (l.orderedInsert (scoreLeRel scores) x).filter (fun y => scoreOf scores y == k)
      = l.filter (fun y => scoreOf scores y == k) := by
  have hxb : (scoreOf scores x == k) = false := by
    simpa [beq_eq_false_iff_ne] using hx
  induction l with
  | nil => simp [List.orderedInsert, hxb]
  | cons y ys ih =>
    by_cases hcmp : scoreLeRel scores x y
    · rw [List.orderedInsert, if_pos hcmp]
      simp [List.filter_cons, hxb]
    · rw [List.orderedInsert, if_neg hcmp]
      simp [List.filter_cons, ih]

theorem filter_insertionSort_scoreLe (scores : ScoreMap) (k : Int) (l : List Category) :
    (l.insertionSort (scoreLeRel scores)).filter (fun y => scoreOf scores y == k)
      = l.filter (fun y => scoreOf scores y == k) := by
  induction l with
  | nil => rfl
  | cons x xs ih =>
    by_cases hx : scoreOf scores x = k
    · rw [List.insertionSort, filter_orderedInsert_of_eq scores k x hx, ih]
      simp [List.filter_cons, hx]
    · have hxb : (scoreOf scores x == k) = false := by
        simpa [beq_eq_false_iff_ne] using hx
      rw [List.insertionSort, filter_orderedInsert_of_ne scores k x hx, ih]
      simp [List.filter_cons, hxb]

theorem length_le_filter_removeId_succ (l : List Category) (id : String)
    (h : (l.map Category.id).Nodup) :
    l.length ≤ (l.filter (fun c => c.id != id)).length + 1 := by
  induction l with
  | nil => simp
  | cons c cs ih =>
    simp only [List.map_cons, List.nodup_cons] at h
    obtain ⟨hc, hcs⟩ := h
    by_cases hid : c.id = id
    · have hall : cs.filter (fun x => x.id != id) = cs := by
        apply List.filter_eq_self.mpr
        intro a ha
        simp only [bne_iff_ne, ne_eq]
        intro haid
        exact hc (by rw [hid, ← haid]; exact List.mem_map_of_mem Category.id ha)
      simp [List.filter_cons, hid, hall]
    · have hkeep : (c.id != id) = true := by simpa [bne_iff_ne] using hid
      have := ih hcs
      simp only [List.filter_cons, hkeep, if_true, List.length_cons]
      omega

theorem toFixed1_eq_roundTo1 (s : Int) (c : Nat) (hc : 0 < c) :
    toFixed1 s c = fixed1String (roundTo1 ((s : ℚ) / (c : ℚ))) := by
  unfold toFixed1 roundTo1
  congr 1
  have hcQ : ((c : ℚ)) ≠ 0 := ne_of_gt (by exact_mod_cast hc)
  have key : 10 * ((s : ℚ) / (c : ℚ)) + 1 / 2
      = (((20 * s + (c : ℤ)) : ℤ) : ℚ) / (((2 * c : ℕ) : ℕ) : ℚ) := by
    push_cast
    field_simp
    ring
  rw [key, Rat.floor_intCast_div_natCast]
  rw [Int.fdiv_eq_ediv _ (by positivity)]
  push_cast
  ring_nf

/-! ### Claims -/

/-- C1: for every category list and score mapping with at least one
scored category, the insight engine's ranking is ascending by score
(`Sorted`), a permutation of the scored categories, stable (for every
score value the categories holding it keep their registry order), and
the priority set is its first 3 entries (so `min 3 n` many), driving the
emitted actions; for scores `{A:5, B:5, C:3, D:5}` in registry order
`A, B, C, D` the priority order is `[C, A, B]`. -/
theorem generateInsights_priority_ranking :
    (∀ (categories : List Category) (scores : ScoreMap),
        activeCategories categories scores ≠ [] →
        (lowestSorted categories scores).Sorted (scoreLeRel scores) ∧
        (lowestSorted categories scores).Perm (activeCategories categories scores) ∧
        (∀ k : Int,
          (lowestSorted categories scores).filter (fun c => scoreOf scores c == k)
            = (activeCategories categories scores).filter (fun c => scoreOf scores c == k)) ∧
        priorityCategories categories scores = (lowestSorted categories scores).take 3 ∧
        (priorityCategories categories scores).length
          = min 3 (activeCategories categories scores).length ∧
        (generateInsights categories scores).actions
          = (priorityCategories categories scores).map
              (fun c => suggestForCategory c.id c.label)) ∧
    (priorityCategories catsABCD scoresTies).map Category.label = ["C", "A", "B"] := by
  constructor
  · intro categories scores h
    haveI : IsTotal Category (scoreLeRel scores) := ⟨fun a b => Int.le_total _ _⟩
    haveI : IsTrans Category (scoreLeRel scores) := ⟨fun a b c hab hbc => le_trans hab hbc⟩
    have hlen : ¬ (activeCategories categories scores).length = 0 := by
      simpa [List.length_eq_zero] using h
    refine ⟨List.sorted_insertionSort _ _, List.perm_insertionSort _ _,
      fun k => filter_insertionSort_scoreLe scores k _, rfl, ?_, ?_⟩
    · unfold priorityCategories lowestSorted
      rw [List.length_take, List.length_insertionSort]
    · simp only [generateInsights]
      rw [if_neg hlen]
  · decide

/-- Witness for C1: the ranking theorem applied to the concrete tied
example `{A:5, B:5, C:3, D:5}`. -/
theorem generateInsights_priority_ranking_witness :
    activeCategories catsABCD scoresTies ≠ [] ∧
    (generateInsights catsABCD scoresTies).actions
      = (priorityCategories catsABCD scoresTies).map
          (fun c => suggestForCategory c.id c.label) :=
  ⟨by decide,
   (generateInsights_priority_ranking.1 catsABCD scoresTies (by decide)).2.2.2.2.2⟩

/-- C2: the chart adapter builds the comparison series by looking up
each current label (position by position) in the snapshot's stored
scores, defaulting missing labels to 0; the output labels are exactly
the current labels, so a label only present in the snapshot appears in
neither series; live labels `[A, B, C]` with snapshot scores
`{A:1, B:2, D:9}` yield comparison series `[1, 2, 0]` and `D` is
absent. -/
theorem wheelChartData_comparison_lookup :
    (∀ (labels : List String) (cur : ScoreMap) (snap : AssessmentSnapshot) (i : Nat),
        ((wheelChartData labels cur (some snap)).comparisonValues.getD [])[i]?
          = (labels[i]?).map (fun label => (findScore snap.scores label).getD 0)) ∧
    (∀ (labels : List String) (cur : ScoreMap) (comparison : Option AssessmentSnapshot),
        (wheelChartData labels cur comparison).labels = labels) ∧
    (wheelChartData (comparisonState.categories.map Category.label) comparisonState.scores
        (comparisonSnapshot comparisonState)).comparisonValues = some [1, 2, 0] ∧
    (wheelChartData (comparisonState.categories.map Category.label) comparisonState.scores
        (comparisonSnapshot comparisonState)).labels = ["A", "B", "C"] ∧
    "D" ∉ (wheelChartData (comparisonState.categories.map Category.label) comparisonState.scores
        (comparisonSnapshot comparisonState)).labels := by
  refine ⟨?_, fun _ _ _ => rfl, by decide, by decide, by decide⟩
  intro labels cur snap i
  simp [wheelChartData, List.getElem?_map]

/-- C4: a snapshot created by the save operation records the live scores
and categories at save time, and none of the later mutations
(`setScore`, `addCategory`, `removeCategory`) changes the saved
history, hence not the recorded snapshot. -/
theorem handleSaveAssessment_snapshot_immutable :
    ∀ (s : AppState) (id name createdAt : String) (label : String) (v : Int)
      (lbl desc : String) (now : Nat) (rid : String),
      (handleSaveAssessment s id name createdAt).assessments.head?
        = some { id := id, name := name, createdAt := createdAt
                 scores := s.scores, categories := s.categories } ∧
      (handleScoreChange (handleSaveAssessment s id name createdAt) label v).assessments
        = (handleSaveAssessment s id name createdAt).assessments ∧
      (handleAddCategory (handleSaveAssessment s id name createdAt) lbl desc now).assessments
        = (handleSaveAssessment s id name createdAt).assessments ∧
      (handleRemoveCategory (handleSaveAssessment s id name createdAt) rid).assessments
        = (handleSaveAssessment s id name createdAt).assessments := by
  intro s id name createdAt label v lbl desc now rid
  refine ⟨rfl, rfl, ?_, rfl⟩
  simp only [handleAddCategory]
  split
  · rfl
  · split <;> rfl

/-- C10: every save prepends the new snapshot to the history and makes
it the active comparison target, replacing any previous selection. -/
theorem handleSaveAssessment_sets_comparison :
    ∀ (s : AppState) (id name createdAt : String),
      (handleSaveAssessment s id name createdAt).selectedComparisonId = some id ∧
      (handleSaveAssessment s id name createdAt).assessments
        = { id := id, name := name, createdAt := createdAt
            scores := s.scores, categories := s.categories } :: s.assessments :=
  fun _ _ _ _ => ⟨rfl, rfl⟩

/-- C3 counterexample: the claim's slug example fails on the code.  The
regex replaces the trailing run `!!` with a hyphen as well, so adding
`"Side Projects!!"` yields id `side-projects-`, not `side-projects`. -/
theorem handleAddCategory_slug_counterexample :
    slugify (jsTrim "Side Projects!!") = "side-projects-" ∧
    ("side-projects-" : String) ≠ "side-projects" ∧
    ((handleAddCategory initialState "Side Projects!!" "" 0).categories.map Category.id).getLast?
      = some "side-projects-" := by decide

/-- C3 (amended): `addCategory` is a no-op when the trimmed label is
empty or a case-insensitive label match exists; otherwise it appends a
category whose id is the lowercased label with every run of
non-alphanumeric characters replaced by a single hyphen (time-based
fallback when empty) and seeds the new label's score to 5; adding
`"Side Projects!!"` yields id `side-projects-`. -/
theorem handleAddCategory_behavior :
    (∀ (s : AppState) (lbl desc : String) (now : Nat),
        jsTrim lbl = "" → handleAddCategory s lbl desc now = s) ∧
    (∀ (s : AppState) (lbl desc : String) (now : Nat),
        (∃ c ∈ s.categories, jsToLower c.label = jsToLower (jsTrim lbl)) →
        handleAddCategory s lbl desc now = s) ∧
    (∀ (s : AppState) (lbl desc : String) (now : Nat),
        jsTrim lbl ≠ "" →
        (∀ c ∈ s.categories, jsToLower c.label ≠ jsToLower (jsTrim lbl)) →
        (handleAddCategory s lbl desc now).categories
            = s.categories ++
              [{ id :=
                   if slugify (jsTrim lbl) = "" then "custom-" ++ toString now
                   else slugify (jsTrim lbl)
                 label := jsTrim lbl
                 description :=
                   if jsTrim desc = "" then "A custom area of life that matters to you."
                   else jsTrim desc }] ∧
          findScore (handleAddCategory s lbl desc now).scores (jsTrim lbl) = some 5) ∧
    slugify "Side Projects!!" = "side-projects-" ∧
    (∀ now : Nat, handleAddCategory initialState "HEALTH & ENERGY" "" now = initialState) := by
  have hdup : ∀ (s : AppState) (lbl desc : String) (now : Nat),
      (∃ c ∈ s.categories, jsToLower c.label = jsToLower (jsTrim lbl)) →
      handleAddCategory s lbl desc now = s := by
    rintro s lbl desc now ⟨c, hc, hlab⟩
    by_cases hne : jsTrim lbl = ""
    · simp [handleAddCategory, hne]
    · have hany : s.categories.any
          (fun x => jsToLower x.label == jsToLower (jsTrim lbl)) = true := by
        rw [List.any_eq_true]
        exact ⟨c, hc, by simp [beq_iff_eq, hlab]⟩
      simp [handleAddCategory, hne, hany]
  refine ⟨?_, hdup, ?_, by decide, ?_⟩
  · intro s lbl desc now h
    simp [handleAddCategory, h]
  · intro s lbl desc now hne hall
    have hany : s.categories.any
        (fun x => jsToLower x.label == jsToLower (jsTrim lbl)) = false := by
      rw [List.any_eq_false]
      intro c hc
      simp [beq_iff_eq]
      exact hall c hc
    refine ⟨?_, ?_⟩
    · simp [handleAddCategory, hne, hany]
    · simp only [handleAddCategory, hne, hany]
      simp only [Bool.false_eq_true, if_false, ite_false]
      exact findScore_setScoreKey_self _ _ _
  · intro now
    exact hdup initialState "HEALTH & ENERGY" "" now
      ⟨DEFAULT_CATEGORIES.head (by decide), by decide, by decide⟩

/-- Witness for C3: the append branch of `handleAddCategory` applied to
the concrete label `"Side Projects!!"` on the initial state. -/
theorem handleAddCategory_behavior_witness :
    findScore (handleAddCategory initialState "Side Projects!!" "" 0).scores
        (jsTrim "Side Projects!!") = some 5 :=
  (handleAddCategory_behavior.2.2.1 initialState "Side Projects!!" "" 0
    (by decide) (by decide)).2

/-- C5: for a non-empty set of scored categories, the summary embeds the
arithmetic mean of their scores rounded to one decimal place and the
exact count of rated categories; scores `{A:2, B:4, C:6}` give mean
`4.0` and count `3`. -/
theorem generateInsights_summary_mean :
    (∀ (categories : List Category) (scores : ScoreMap),
        activeCategories categories scores ≠ [] →
        (generateInsights categories scores).summary
          = "Your average score is " ++
            fixed1String (roundTo1
              ((((activeCategories categories scores).map (scoreOf scores)).sum : ℚ) /
                ((activeCategories categories scores).length : ℚ))) ++
            "/10 across " ++ toString (activeCategories categories scores).length ++
            " areas. A balanced wheel is less about perfection and more about feeling steady overall.") ∧
    (generateInsights catsABC scoresMean).summary
      = "Your average score is 4.0/10 across 3 areas. A balanced wheel is less about perfection and more about feeling steady overall." := by
  constructor
  · intro categories scores h
    have hlen : ¬ (activeCategories categories scores).length = 0 := by
      simpa [List.length_eq_zero] using h
    have hpos : 0 < (activeCategories categories scores).length := Nat.pos_of_ne_zero hlen
    have hms : (activeCategories categories scores).map
          (fun c => (findScore scores c.label).getD 0)
        = (activeCategories categories scores).map (scoreOf scores) := rfl
    simp only [generateInsights]
    rw [if_neg hlen]
    dsimp only
    rw [foldl_add_eq_sum, zero_add, List.length_map, if_neg hlen,
      toFixed1_eq_roundTo1 _ _ hpos, hms]
  · decide

/-- Witness for C5: the mean theorem applied to the concrete scores
`{A:2, B:4, C:6}`. -/
theorem generateInsights_summary_mean_witness :
    activeCategories catsABC scoresMean ≠ [] ∧
    (generateInsights catsABC scoresMean).summary
      = "Your average score is " ++
        fixed1String (roundTo1
          ((((activeCategories catsABC scoresMean).map (scoreOf scoresMean)).sum : ℚ) /
            ((activeCategories catsABC scoresMean).length : ℚ))) ++
        "/10 across " ++ toString (activeCategories catsABC scoresMean).length ++
        " areas. A balanced wheel is less about perfection and more about feeling steady overall." :=
  ⟨by decide, generateInsights_summary_mean.1 catsABC scoresMean (by decide)⟩

/-- C6 counterexample: the set-score handler neither rejects nor clamps:
storing 11 changes the store and records 11 itself, not the clamp 10. -/
theorem handleScoreChange_out_of_range_counterexample :
    ¬ ((11 : Int) ≤ 10) ∧
    (handleScoreChange initialState "Health & Energy" 11).scores ≠ initialState.scores ∧
    findScore (handleScoreChange initialState "Health & Energy" 11).scores "Health & Energy"
      = some 11 ∧
    findScore (handleScoreChange initialState "Health & Energy" 11).scores "Health & Energy"
      ≠ some 10 := by decide

/-- C6 (amended): the set-score operation stores the given value
verbatim, with no range validation: the updated store is exactly the
old store with the label's entry set to the value, other labels are
untouched, so out-of-range values are stored as given (the UI slider,
bounded to [0,10], is the only range guard). -/
theorem handleScoreChange_stores_verbatim :
    (∀ (s : AppState) (label : String) (value : Int),
        (handleScoreChange s label value).scores = setScoreKey s.scores label value ∧
        findScore (handleScoreChange s label value).scores label = some value) ∧
    (∀ (s : AppState) (label : String) (value : Int) (other : String),
        other ≠ label →
        findScore (handleScoreChange s label value).scores other
          = findScore s.scores other) := by
  refine ⟨fun s label value => ⟨rfl, findScore_setScoreKey_self _ _ _⟩, ?_⟩
  intro s label value other h
  exact findScore_setScoreKey_ne _ _ _ _ h

/-- Witness for C6 (amended): an unrelated label is untouched by a
concrete out-of-range write. -/
theorem handleScoreChange_stores_verbatim_witness :
    findScore (handleScoreChange initialState "Health & Energy" 11).scores "Career & Work"
      = findScore initialState.scores "Career & Work" :=
  handleScoreChange_stores_verbatim.2 initialState "Health & Energy" 11 "Career & Work"
    (by decide)

/-- C7 counterexample: in a reachable state with exactly 4 categories
the remove handler still removes: the registry drops to 3 entries and
the score store changes, so the data-layer operation is not rejected at
the floor. -/
theorem handleRemoveCategory_floor_counterexample :
    removedToFloorState.categories.length = 4 ∧
    (handleRemoveCategory removedToFloorState "health").categories.length = 3 ∧
    (handleRemoveCategory removedToFloorState "health").categories
      ≠ removedToFloorState.categories ∧
    (handleRemoveCategory removedToFloorState "health").scores
      ≠ removedToFloorState.scores := by decide

/-- C7 (amended): the remove handler itself filters the registry
unconditionally; the ≥ 4 floor is enforced only by the UI, which
renders the remove control solely when more than 4 categories exist, so
removal triggered through the UI never brings a registry with unique
ids below 4 entries. -/
theorem handleRemoveCategory_ui_floor :
    (∀ (s : AppState) (id : String),
        (handleRemoveCategory s id).categories
          = s.categories.filter (fun c => c.id != id)) ∧
    (∀ (s : AppState) (id : String),
        (s.categories.map Category.id).Nodup →
        4 ≤ s.categories.length →
        4 ≤ (uiRemoveCategory s id).categories.length) := by
  refine ⟨fun _ _ => rfl, ?_⟩
  intro s id hnodup h4
  unfold uiRemoveCategory
  by_cases hlen : 4 < s.categories.length
  · rw [if_pos hlen]
    have hb := length_le_filter_removeId_succ s.categories id hnodup
    show 4 ≤ (s.categories.filter (fun c => c.id != id)).length
    omega
  · rw [if_neg hlen]
    exact h4

/-- Witness for C7 (amended): the guarded UI removal applied to a
5-category state keeps the registry at 4 entries. -/
theorem handleRemoveCategory_ui_floor_witness :
    4 ≤ (uiRemoveCategory (handleRemoveCategory (handleRemoveCategory
        (handleRemoveCategory initialState "spirituality") "environment") "fun")
        "health").categories.length :=
  handleRemoveCategory_ui_floor.2 _ "health" (by decide) (by decide)

/-- C8: the suggested action is looked up by category id in the fixed
8-entry table, each id yielding its bespoke text verbatim regardless of
the label; an id outside the table yields the generic template with the
label substituted, e.g. id `custom-creativity` with label `Creativity`. -/
theorem suggestForCategory_table :
    (∀ label : String, suggestForCategory "health" label
        = "Pick one tiny habit this week (a 10‑minute walk, stretching, or lights‑out time) that would noticeably improve your energy.") ∧
    (∀ label : String, suggestForCategory "career" label
        = "Clarify your next small career move: a conversation, a course, or a project that moves you one step forward.") ∧
    (∀ label : String, suggestForCategory "relationships" label
        = "Schedule one meaningful check‑in or shared activity with someone important to you.") ∧
    (∀ label : String, suggestForCategory "finance" label
        = "Decide on one simple money habit: a weekly budget review, an automatic transfer, or tracking expenses.") ∧
    (∀ label : String, suggestForCategory "growth" label
        = "Choose one skill or topic to focus on this month and block out two learning sessions in your calendar.") ∧
    (∀ label : String, suggestForCategory "fun" label
        = "Plan a small, guilt‑free activity this week that’s just for enjoyment and recharge.") ∧
    (∀ label : String, suggestForCategory "environment" label
        = "Identify one small improvement to your space (decluttering, lighting, or setup) and schedule it.") ∧
    (∀ label : String, suggestForCategory "spirituality" label
        = "Set aside a short daily or weekly ritual (reflection, journaling, or quiet time) to reconnect with your values.") ∧
    (∀ (id label : String),
        id ∉ ["health", "career", "relationships", "finance", "growth", "fun",
              "environment", "spirituality"] →
        suggestForCategory id label
          = "Choose one small, realistic action this week that would move your \"" ++
              label ++ "\" score up by just one point.") ∧
    suggestForCategory "custom-creativity" "Creativity"
      = "Choose one small, realistic action this week that would move your \"Creativity\" score up by just one point." := by
  refine ⟨fun _ => rfl, fun _ => rfl, fun _ => rfl, fun _ => rfl, fun _ => rfl,
    fun _ => rfl, fun _ => rfl, fun _ => rfl, ?_, by decide⟩
  intro id label h
  simp only [List.mem_cons, List.not_mem_nil, or_false, not_or] at h
  obtain ⟨h1, h2, h3, h4, h5, h6, h7, h8⟩ := h
  simp only [suggestForCategory, if_neg h1, if_neg h2, if_neg h3, if_neg h4, if_neg h5,
    if_neg h6, if_neg h7, if_neg h8]

/-- Witness for C8: the fallback branch applied to a concrete id
outside the table. -/
theorem suggestForCategory_table_witness :
    suggestForCategory "parenting" "Parenting"
      = "Choose one small, realistic action this week that would move your \"Parenting\" score up by just one point." :=
  suggestForCategory_table.2.2.2.2.2.2.2.2.1 "parenting" "Parenting" (by decide)

/-- C9: loading the snapshot history never propagates a failure: absent
content, a parse error, or a parse result that is not an array (for
example the stored text `not an array`) all yield the empty history. -/
theorem loadAssessments_defensive :
    (∀ parse : String → Except String Json, loadAssessments none parse = []) ∧
    (∀ (parse : String → Except String Json) (raw e : String),
        parse raw = Except.error e → loadAssessments (some raw) parse = []) ∧
    (∀ (parse : String → Except String Json) (raw : String) (j : Json),
        parse raw = Except.ok j → (∀ xs : List Json, j ≠ Json.arr xs) →
        loadAssessments (some raw) parse = []) ∧
    loadAssessments (some "not an array") (fun s => Except.ok (Json.str s)) = [] ∧
    loadAssessments (some "not an array")
      (fun _ => Except.error "Unexpected token") = [] := by
  refine ⟨fun _ => rfl, ?_, ?_, rfl, rfl⟩
  · intro parse raw e h
    simp [loadAssessments, h]
  · intro parse raw j h hne
    cases j with
    | arr xs => exact absurd rfl (hne xs)
    | null => simp [loadAssessments, h]
    | bool b => simp [loadAssessments, h]
    | num n => simp [loadAssessments, h]
    | str s => simp [loadAssessments, h]
    | obj o => simp [loadAssessments, h]

/-- Witness for C9: a concrete throwing parse yields the empty
history. -/
theorem loadAssessments_defensive_witness :
    loadAssessments (some "x") (fun _ => Except.error "SyntaxError") = [] :=
  loadAssessments_defensive.2.1 (fun _ => Except.error "SyntaxError") "x" "SyntaxError" rfl
